import Mathlib

/-!
Shallow embedding of `src/DownloadManager.py` (bocaletto-luca/DownloadManager).

The worker thread (`DownloadThread.run`, lines 135-249) is modelled as a pure
function from its inputs and an environment oracle (file-system sizes, HTTP
responses, clock readings) to the list of emitted events plus the observable
file-system outcome.  Timestamps are `time.time()` readings in milliseconds,
modelled as `Int`.  Byte counters are `Nat`.  Header values that the code
parses with `int(...)` are modelled as already-parsed `Option Nat` fields
(present-and-parseable or not), since only the parse outcome feeds the logic.

The controller (`DownloadManager`, lines 252-565) is modelled as a state
record over per-row maps; GUI-only effects (progress bars, table text) are
kept only where a claim mentions them (the status text).
-/

namespace DL

/-- `save_interval = 0.5` seconds (line 81), in milliseconds. -/
def saveIntervalMs : Int := 500

/-- The `0.25` second tick gate in the streaming loop (line 237), in milliseconds. -/
def tickIntervalMs : Int := 250

/-- `save_bytes_threshold = 1024 * 1024` (line 82). -/
def saveBytesThreshold : Nat := 1024 * 1024

/-- Events emitted through `DownloadSignals` (lines 43-48).
`progress` carries a percent where `-1` means indeterminate. -/
inductive Event where
  | progress (percent : Int)
  | info (downloaded total : Nat) (etag lastMod : Option String)
  | status (text : String)
deriving DecidableEq, Repr

/-- One iteration of `r.iter_content(...)` (lines 214-239): the control flag
read from `stop_flags` at this iteration, the chunk length (`0` models a
falsy chunk, skipped by `if not chunk: continue`), and the `time.time()`
reading (ms) taken after processing the chunk. -/
structure ChunkEvent where
  flag : Option String
  len : Nat
  now : Int
deriving DecidableEq, Repr

/-- An HTTP response as the worker observes it.  `contentRangeTotal` is the
total field of a present, `/`-containing, parseable `Content-Range` header;
`contentLength` a present parseable `Content-Length` (lines 112-123). -/
structure Response where
  statusCode : Nat
  contentRangeTotal : Option Nat
  contentLength : Option Nat
  etag : Option String
  lastMod : Option String
  chunks : List ChunkEvent
deriving DecidableEq, Repr

/-- Environment oracle for one `DownloadThread.run` execution: staging-file
size on disk (`none` = `path + ".part"` absent), prior destination size,
the responses to the first and (when issued) second GET, the
`_head_remote_size` result (`0` on failure, lines 126-133), and the clock
at file open (initialising `last_tick`, line 213) and at the final
checkpoint call (line 246). -/
structure Env where
  stagingSize : Option Nat
  destSize : Option Nat
  resp1 : Response
  resp2 : Response
  headSize : Nat
  tOpen : Int
  tEnd : Int
deriving DecidableEq, Repr

/-- Mutable worker-loop state: `downloaded`, current staging-file size, and
the checkpoint throttle fields `bytes_since_save`, `last_save_time`
(initialised to `0.0`, line 80), `last_tick`; `saves` counts executed
`save_state_callback` invocations. -/
structure LoopState where
  downloaded : Nat
  staging : Nat
  bytesSinceSave : Nat
  lastSaveTime : Int
  lastTick : Int
  saves : Nat
deriving DecidableEq, Repr

/-- `_save_state_throttled` (lines 101-109): write the ledger iff at least
`save_interval` elapsed since the last write or at least
`save_bytes_threshold` bytes accumulated; on write, reset both gauges. -/
def saveThrottled (now : Int) (st : LoopState) : LoopState :=
  if now - st.lastSaveTime ≥ saveIntervalMs ∨ st.bytesSinceSave ≥ saveBytesThreshold then
    { st with lastSaveTime := now, bytesSinceSave := 0, saves := st.saves + 1 }
  else st

/-- The cadence gate in the loop body (lines 236-239): only when at least
`0.25` s passed since `last_tick` is `_save_state_throttled` called and
`last_tick` advanced. -/
def tickAndSave (now : Int) (st : LoopState) : LoopState :=
  if now - st.lastTick ≥ tickIntervalMs then
    { saveThrottled now st with lastTick := now }
  else st

/-- How the streaming loop ended. -/
inductive LoopExit where
  | paused
  | stopped
  | finished
deriving DecidableEq, Repr

structure LoopResult where
  events : List Event
  state : LoopState
  exit : LoopExit
deriving DecidableEq, Repr

/-- The chunk-streaming loop (lines 213-239): per chunk, read the control
flag (pause/stop return immediately), skip empty chunks, append to the
staging file, advance counters, emit a progress event capped at 99 when the
total is known, emit an info event, then run the tick-gated throttled
checkpoint. -/
def streamLoop (total : Nat) (etag lastMod : Option String) :
    List ChunkEvent → LoopState → LoopResult
  | [], st => ⟨[], st, LoopExit.finished⟩
  | c :: rest, st =>
    if c.flag = some "pause" then
      ⟨[Event.status "Paused"], st, LoopExit.paused⟩
    else if c.flag = some "stop" then
      ⟨[Event.status "Stopped"], st, LoopExit.stopped⟩
    else if c.len = 0 then
      streamLoop total etag lastMod rest st
    else
      let downloaded := st.downloaded + c.len
      let st1 : LoopState :=
        { st with downloaded := downloaded, staging := st.staging + c.len,
                  bytesSinceSave := st.bytesSinceSave + c.len }
      let evs : List Event :=
        (if total ≠ 0 then
          [Event.progress (Int.ofNat (min (downloaded * 100 / total) 99))]
         else []) ++ [Event.info downloaded total etag lastMod]
      let st2 := tickAndSave c.now st1
      let r := streamLoop total etag lastMod rest st2
      ⟨evs ++ r.events, r.state, r.exit⟩

/-- `_determine_total_size` (lines 111-124): total field of `Content-Range`
if parseable, else `Content-Length + start_byte` if parseable, else `0`. -/
def determine_total_size (resp : Response) (start_byte : Nat) : Nat :=
  match resp.contentRangeTotal with
  | some t => t
  | none =>
    match resp.contentLength with
    | some cl => cl + start_byte
    | none => 0

/-- Lines 203-204: the caller-known size wins when nonzero, otherwise the
response headers are consulted. -/
def resolveTotal (totalSize0 : Nat) (resp : Response) (start_byte : Nat) : Nat :=
  if totalSize0 = 0 then determine_total_size resp start_byte else totalSize0

/-- Lines 153-159: headers of the initial GET.  With a positive resume
offset, a `Range` header and — when a validator is stored — an `If-Range`
header preferring the etag over the last-modified value. -/
def initialHeaders (start_byte : Nat) (etag lastMod : Option String) :
    List (String × String) :=
  if start_byte > 0 then
    ("Range", "bytes=" ++ toString start_byte ++ "-") ::
    (match etag with
     | some e => [("If-Range", e)]
     | none =>
       match lastMod with
       | some l => [("If-Range", l)]
       | none => [])
  else []

/-- The resume-offset rule used both by `start_download` (lines 431-438) and
by `DownloadThread.run` (lines 143-148): the staging file's actual size
whenever the staging file exists, otherwise the ledger's downloaded count. -/
def resolveStartByte (ledgerDownloaded : Nat) (stagingSize : Option Nat) : Nat :=
  match stagingSize with
  | some sz => sz
  | none => ledgerDownloaded

/-- The text of the Error status event surfaced at line 249 when
`raise_for_status` throws: `f"Error: {e}"`, with the exception detail
modelled by the offending status code. -/
def errorStatus (code : Nat) : String := "Error: " ++ toString code

/-- Observable outcome of one `DownloadThread.run` execution: the emitted
events, the header list of each GET issued, the `(downloaded, staging)` pair
at the moment the streaming loop was entered (`none` if it never was), the
final staging/destination file sizes, whether the staging file was promoted
by `os.replace`, and how many ledger checkpoints the worker executed. -/
structure RunResult where
  events : List Event
  requests : List (List (String × String))
  loopInit : Option (Nat × Nat)
  stagingFinal : Option Nat
  destFinal : Option Nat
  promoted : Bool
  saves : Nat
deriving DecidableEq, Repr

/-- Lines 196-200: `if not self.etag: self.etag = r.headers.get("ETag")`
(and likewise for `Last-Modified`) — a stored validator wins over the
response's. -/
def capturedValidator (stored fromResp : Option String) : Option String :=
  match stored with
  | some v => some v
  | none => fromResp

/-- Lines 196-246: the tail of `run` once the response to stream from is
settled — capture validators, resolve the total size, emit the
indeterminate marker when unknown, stream, and on a cleanly exhausted
stream promote the staging file and emit the completion events plus a final
throttled checkpoint. -/
def runStream (env : Env) (resp : Response) (start_byte stagingAtOpen totalSize0 : Nat)
    (etag0 lastMod0 : Option String) (reqs : List (List (String × String)))
    (dest : Option Nat) : RunResult :=
  let etag := capturedValidator etag0 resp.etag
  let lastMod := capturedValidator lastMod0 resp.lastMod
  let total := resolveTotal totalSize0 resp start_byte
  let preEvents := if total = 0 then [Event.progress (-1)] else []
  let st0 : LoopState :=
    ⟨start_byte, stagingAtOpen, 0, 0, env.tOpen, 0⟩
  let r := streamLoop total etag lastMod resp.chunks st0
  if r.exit = LoopExit.finished then
    let stF := saveThrottled env.tEnd r.state
    { events := preEvents ++ r.events ++
        [Event.info r.state.downloaded (if total = 0 then r.state.downloaded else total)
           etag lastMod,
         Event.progress 100, Event.status "Completed"],
      requests := reqs, loopInit := some (start_byte, stagingAtOpen),
      stagingFinal := none, destFinal := some r.state.staging,
      promoted := true, saves := stF.saves }
  else
    { events := preEvents ++ r.events, requests := reqs,
      loopInit := some (start_byte, stagingAtOpen),
      stagingFinal := some r.state.staging, destFinal := dest,
      promoted := false, saves := r.state.saves }

/-- `DownloadThread.run` (lines 135-249).  The resume offset prefers the
staging file's size; the initial GET carries the `Range`/`If-Range`
headers; a 416 is reconciled against a HEAD size (promote when equal and
nonzero, else restart plain from zero with the staging file truncated by
`mode = "wb"`); `raise_for_status` turns any 4xx/5xx into an Error status
event (the exception text is modelled as the status code); a 200 answered
to a ranged request discards the staging file and restarts plain from
zero.  At most two GETs are ever issued. -/
def runWorker (startByte0 totalSize0 : Nat) (etag0 lastMod0 : Option String)
    (env : Env) : RunResult :=
  let start_byte := resolveStartByte startByte0 env.stagingSize
  let headers1 := initialHeaders start_byte etag0 lastMod0
  let r1 := env.resp1
  if r1.statusCode = 416 then
    let localSize := env.stagingSize.getD 0
    let remoteSize := env.headSize
    if remoteSize > 0 ∧ localSize = remoteSize then
      { events := [Event.info remoteSize remoteSize etag0 lastMod0,
                   Event.progress 100, Event.status "Completed"],
        requests := [headers1], loopInit := none, stagingFinal := none,
        destFinal := some localSize, promoted := true, saves := 0 }
    else
      let r2 := env.resp2
      if 400 ≤ r2.statusCode then
        { events := [Event.status (errorStatus r2.statusCode)],
          requests := [headers1, []], loopInit := none,
          stagingFinal := env.stagingSize, destFinal := env.destSize,
          promoted := false, saves := 0 }
      else
        runStream env r2 0 0 totalSize0 etag0 lastMod0 [headers1, []] env.destSize
  else if 400 ≤ r1.statusCode then
    { events := [Event.status (errorStatus r1.statusCode)],
      requests := [headers1], loopInit := none,
      stagingFinal := env.stagingSize, destFinal := env.destSize,
      promoted := false, saves := 0 }
  else if start_byte > 0 ∧ r1.statusCode = 200 then
    let r2 := env.resp2
    if 400 ≤ r2.statusCode then
      { events := [Event.status (errorStatus r2.statusCode)],
        requests := [headers1, []], loopInit := none,
        stagingFinal := none, destFinal := env.destSize,
        promoted := false, saves := 0 }
    else
      runStream env r2 0 0 totalSize0 etag0 lastMod0 [headers1, []] env.destSize
  else
    runStream env r1 start_byte
      (if start_byte > 0 then env.stagingSize.getD 0 else 0)
      totalSize0 etag0 lastMod0 [headers1] env.destSize

/-- One element of `self.downloads` (line 262): the ledger record of a task. -/
structure TaskRec where
  url : String
  path : String
  downloaded : Nat
  total : Nat
  etag : Option String
  lastMod : Option String
deriving DecidableEq, Repr

/-- Controller state: the ledger list, the per-row control-flag dictionary
`stop_flags`, the displayed status text (table column 4), whether a live
thread serves the row (`self.threads.get(row)` alive), and per-row
staging/destination file sizes on disk (`none` = absent). -/
structure MgrState where
  downloads : List TaskRec
  stopFlags : Nat → Option String
  statusText : Nat → String
  threadAlive : Nat → Bool
  staging : Nat → Option Nat
  dest : Nat → Option Nat

/-- The arguments a spawned `DownloadThread` receives (lines 443-455). -/
structure SpawnInfo where
  url : String
  path : String
  start_byte : Nat
  total_size : Nat
  etag : Option String
  lastMod : Option String
deriving DecidableEq, Repr

/-- `start_download` (lines 420-464): out-of-range rows are ignored; a row
with a live thread only gets its status text set to "Already running"; else
the resume offset is taken from the staging file when present (otherwise
the ledger's downloaded count), the control flag is cleared, and a thread
is spawned with the task's parameters (status text ends at "Downloading"). -/
def start_download (s : MgrState) (row : Nat) : MgrState × Option SpawnInfo :=
  if h : row < s.downloads.length then
    let d := s.downloads.get ⟨row, h⟩
    if s.threadAlive row then
      ({ s with statusText := fun r => if r = row then "Already running" else s.statusText r },
       none)
    else
      let start_byte := resolveStartByte d.downloaded (s.staging row)
      ({ s with
          stopFlags := fun r => if r = row then none else s.stopFlags r,
          statusText := fun r => if r = row then "Downloading" else s.statusText r,
          threadAlive := fun r => if r = row then true else s.threadAlive r },
       some ⟨d.url, d.path, start_byte, d.total, d.etag, d.lastMod⟩)
  else (s, none)

/-- `pause_download` (lines 466-470): set the control flag to "pause" and
the status text to "Pausing…"; nothing else is touched. -/
def pause_download (s : MgrState) (row : Nat) : MgrState :=
  { s with
    stopFlags := fun r => if r = row then some "pause" else s.stopFlags r,
    statusText := fun r => if r = row then "Pausing…" else s.statusText r }

/-- `stop_download` (lines 475-479): set the control flag to "stop" and the
status text to "Stopping…"; nothing else is touched. -/
def stop_download (s : MgrState) (row : Nat) : MgrState :=
  { s with
    stopFlags := fun r => if r = row then some "stop" else s.stopFlags r,
    statusText := fun r => if r = row then "Stopping…" else s.statusText r }

/-- `on_status` (lines 518-565): display the status; on "Stopped" reset the
row's downloaded count to 0 and remove its staging file; on "Completed"
set downloaded to the total when the destination file's size equals the
recorded nonzero total, and remove any leftover staging file.  The
destination file is never touched. -/
def on_status (s : MgrState) (row : Nat) (status : String) : MgrState :=
  let s1 := { s with statusText := fun r => if r = row then status else s.statusText r }
  if status = "Stopped" then
    if h : row < s1.downloads.length then
      { s1 with
        downloads := s1.downloads.set row { s1.downloads.get ⟨row, h⟩ with downloaded := 0 },
        staging := fun r => if r = row then none else s1.staging r }
    else s1
  else if status = "Completed" then
    if h : row < s1.downloads.length then
      let d := s1.downloads.get ⟨row, h⟩
      let d2 := if d.total ≠ 0 ∧ s1.dest row = some d.total then
                  { d with downloaded := d.total }
                else d
      { s1 with
        downloads := s1.downloads.set row d2,
        staging := fun r => if r = row then none else s1.staging r }
    else s1
  else s1

/-- The ledger document on disk: the canonical file `downloads.json` and
its sibling temporary file `downloads.json.tmp`, each `none` when absent. -/
structure FSFile where
  canonical : Option String
  tmp : Option String
deriving DecidableEq, Repr

/-- `atomic_write_json` (lines 36-40) as the list of observable file-system
states it passes through: `json.dump` may emit the temporary file in any
number of pieces (every prefix of the serialized data is an observable tmp
content), and the single `os.replace` then installs the full content as the
canonical file.  The canonical file is never written in place. -/
def atomic_write_json (fs : FSFile) (data : String) : List FSFile :=
  ((List.range (data.length + 1)).map
    (fun k => { fs with tmp := some (data.take k) })) ++
  [{ canonical := some data, tmp := none }]

/-- `save_state` (lines 302-307): run `atomic_write_json` under the state
lock, swallowing any exception.  `outcome = none` models a completed write;
`outcome = some k` models an exception thrown after the k-th observable
file-system state was reached (the file system stays at that state, the
in-memory ledger is untouched, and nothing is raised to the caller — the
function returns normally in every case). -/
def save_state (s : MgrState) (fs : FSFile) (data : String) (outcome : Option Nat) :
    MgrState × FSFile :=
  match outcome with
  | none => (s, { canonical := some data, tmp := none })
  | some k => (s, (atomic_write_json fs data).getD k fs)

/-! ## Concrete instances used to exercise the model -/

/-- A resumed download: staging file of 500 bytes, 206 response with
`Content-Range` total 1000, two chunks completing the body. -/
def envA : Env :=
  ⟨some 500, none,
   ⟨206, some 1000, none, some "E", none,
    [⟨none, 300, 1000300⟩, ⟨none, 200, 1000400⟩]⟩,
   ⟨200, none, none, none, none, []⟩, 0, 1000000, 1000900⟩

/-- A 416 answer whose HEAD size equals the 500-byte staging file. -/
def env416 : Env :=
  ⟨some 500, none,
   ⟨416, none, none, none, none, []⟩,
   ⟨200, none, some 700, none, none, [⟨none, 700, 1000600⟩]⟩, 500, 1000000, 1001500⟩

/-- A ranged request answered with a full 200 body (server ignored Range). -/
def env200 : Env :=
  ⟨some 500, none,
   ⟨200, none, some 1000, none, none, [⟨none, 1000, 1000600⟩]⟩,
   ⟨200, none, some 1000, none, none, [⟨none, 1000, 1000600⟩]⟩, 0, 1000000, 1001500⟩


/-- Fast transfer: three 1 MiB chunks arriving within 0.24 s of the file
open and a pause observed right after — more than 2 MiB are streamed with
every chunk time less than 0.25 s past `last_tick`. -/
def c4env : Env :=
  ⟨none, none,
   ⟨200, none, some (4 * 1048576), none, none,
    [⟨none, 1048576, 1000100⟩, ⟨none, 1048576, 1000200⟩, ⟨none, 1048576, 1000240⟩,
     ⟨some "pause", 0, 1000250⟩]⟩,
   ⟨200, none, none, none, none, []⟩, 0, 1000000, 1000300⟩

/-- A 206 response with both a Content-Range total and a Content-Length. -/
def respB : Response := ⟨206, some 1234, some 50, none, none, []⟩

/-- A 200 response carrying no size information at all. -/
def respC : Response := ⟨200, none, none, none, none, []⟩

def taskA : TaskRec := ⟨"http://u", "f.bin", 5, 10, none, none⟩

/-- One registered task, no live thread, a 3-byte staging file. -/
def mgrA : MgrState :=
  ⟨[taskA], fun _ => none, fun _ => "Paused", fun _ => false,
   fun _ => some 3, fun _ => none⟩

/-- One registered task with a live thread. -/
def mgrB : MgrState :=
  ⟨[taskA], fun _ => none, fun _ => "Downloading", fun _ => true,
   fun _ => none, fun _ => none⟩

def fsA : FSFile := ⟨some "old", none⟩

/-! ## Helper lemmas -/

theorem streamLoop_events_ok (total : Nat) (etag lastMod : Option String) :
    ∀ (chunks : List ChunkEvent) (st : LoopState) (e : Event),
      e ∈ (streamLoop total etag lastMod chunks st).events →
      (∀ p, e = Event.progress p → 0 ≤ p ∧ p ≤ 99) ∧
      (∀ m, e = Event.status m → m = "Paused" ∨ m = "Stopped") := by
  intro chunks
  induction chunks with
  | nil => intro st e h; simp [streamLoop] at h
  | cons c rest ih =>
    intro st e h
    rw [streamLoop] at h
    by_cases hp : c.flag = some "pause"
    · rw [if_pos hp] at h
      simp only [List.mem_singleton] at h
      subst h
      exact ⟨(fun p hp2 => by cases hp2), (fun m hm => by cases hm; simp)⟩
    rw [if_neg hp] at h
    by_cases hs : c.flag = some "stop"
    · rw [if_pos hs] at h
      simp only [List.mem_singleton] at h
      subst h
      exact ⟨(fun p hp2 => by cases hp2), (fun m hm => by cases hm; simp)⟩
    rw [if_neg hs] at h
    by_cases hz : c.len = 0
    · rw [if_pos hz] at h
      exact ih _ _ h
    rw [if_neg hz] at h
    simp only [List.mem_append] at h
    rcases h with (h | h)
    · rcases h with (h | h)
      · by_cases ht : total ≠ 0
        · rw [if_pos ht] at h
          simp only [List.mem_singleton] at h
          subst h
          refine ⟨fun p hp2 => ?_, fun m hm => by cases hm⟩
          cases hp2
          constructor
          · exact Int.ofNat_nonneg _
          · exact Int.ofNat_le.mpr (Nat.min_le_right _ 99)
        · rw [if_neg ht] at h
          simp at h
      · simp only [List.mem_singleton] at h
        subst h
        exact ⟨(fun p hp2 => by cases hp2), (fun m hm => by cases hm)⟩
    · exact ih _ _ h

theorem runStream_requests (env : Env) (resp : Response) (sb sa t0 : Nat)
    (e0 l0 : Option String) (reqs : List (List (String × String))) (dest : Option Nat) :
    (runStream env resp sb sa t0 e0 l0 reqs dest).requests = reqs := by
  unfold runStream
  dsimp only
  split <;> rfl

theorem runStream_loopInit (env : Env) (resp : Response) (sb sa t0 : Nat)
    (e0 l0 : Option String) (reqs : List (List (String × String))) (dest : Option Nat) :
    (runStream env resp sb sa t0 e0 l0 reqs dest).loopInit = some (sb, sa) := by
  unfold runStream
  dsimp only
  split <;> rfl

theorem runStream_status_events (env : Env) (resp : Response) (sb sa t0 : Nat)
    (e0 l0 : Option String) (reqs : List (List (String × String))) (dest : Option Nat)
    (m : String)
    (h : Event.status m ∈ (runStream env resp sb sa t0 e0 l0 reqs dest).events) :
    m = "Paused" ∨ m = "Stopped" ∨ m = "Completed" := by
  unfold runStream at h
  dsimp only at h
  split at h
  · simp only [List.mem_append, List.mem_cons, List.mem_singleton,
      List.not_mem_nil, or_false] at h
    rcases h with (h | h) | h | h | h
    · by_cases ht : resolveTotal t0 resp sb = 0
      · rw [if_pos ht] at h; simp at h
      · rw [if_neg ht] at h; simp at h
    · have h2 := (streamLoop_events_ok _ _ _ _ _ _ h).2 m rfl
      tauto
    · cases h
    · cases h
    · cases h; tauto
  · simp only [List.mem_append] at h
    rcases h with h | h
    · by_cases ht : resolveTotal t0 resp sb = 0
      · rw [if_pos ht] at h; simp at h
      · rw [if_neg ht] at h; simp at h
    · have h2 := (streamLoop_events_ok _ _ _ _ _ _ h).2 m rfl
      tauto

theorem runStream_progress100 (env : Env) (resp : Response) (sb sa t0 : Nat)
    (e0 l0 : Option String) (reqs : List (List (String × String))) (dest : Option Nat)
    (h : Event.progress 100 ∈ (runStream env resp sb sa t0 e0 l0 reqs dest).events) :
    Event.status "Completed" ∈ (runStream env resp sb sa t0 e0 l0 reqs dest).events := by
  unfold runStream at h ⊢
  dsimp only at h ⊢
  split at h <;> rename_i hfin
  · rw [if_pos hfin]
    simp
  · exfalso
    simp only [List.mem_append] at h
    rcases h with h | h
    · by_cases ht : resolveTotal t0 resp sb = 0
      · rw [if_pos ht] at h; simp at h
      · rw [if_neg ht] at h; simp at h
    · have h1 := (streamLoop_events_ok _ _ _ _ _ _ h).1 100 rfl
      omega

theorem runStream_indeterminate (env : Env) (resp : Response) (sb sa t0 : Nat)
    (e0 l0 : Option String) (reqs : List (List (String × String))) (dest : Option Nat)
    (ht : resolveTotal t0 resp sb = 0) :
    Event.progress (-1) ∈ (runStream env resp sb sa t0 e0 l0 reqs dest).events := by
  unfold runStream
  dsimp only
  split <;> simp [ht]

theorem streamLoop_no_tick_saves (total : Nat) (etag lastMod : Option String) :
    ∀ (chunks : List ChunkEvent) (st : LoopState),
      (∀ c ∈ chunks, c.now - st.lastTick < tickIntervalMs) →
      (streamLoop total etag lastMod chunks st).state.saves = st.saves ∧
      (streamLoop total etag lastMod chunks st).state.lastTick = st.lastTick := by
  intro chunks
  induction chunks with
  | nil => intro st _; simp [streamLoop]
  | cons c rest ih =>
    intro st hno
    rw [streamLoop]
    by_cases hp : c.flag = some "pause"
    · rw [if_pos hp]; exact ⟨rfl, rfl⟩
    rw [if_neg hp]
    by_cases hs : c.flag = some "stop"
    · rw [if_pos hs]; exact ⟨rfl, rfl⟩
    rw [if_neg hs]
    by_cases hz : c.len = 0
    · rw [if_pos hz]
      exact ih st (fun d hd => hno d (List.mem_cons_of_mem c hd))
    rw [if_neg hz]
    have hc : c.now - st.lastTick < tickIntervalMs := hno c (List.mem_cons_self c rest)
    have hgate : tickAndSave c.now
        { st with downloaded := st.downloaded + c.len, staging := st.staging + c.len,
                  bytesSinceSave := st.bytesSinceSave + c.len } =
        { st with downloaded := st.downloaded + c.len, staging := st.staging + c.len,
                  bytesSinceSave := st.bytesSinceSave + c.len } := by
      rw [tickAndSave, if_neg]
      simp only [not_le]
      exact hc
    simp only [hgate]
    exact ih _ (fun d hd => hno d (List.mem_cons_of_mem c hd))

theorem runWorker_requests_headq (startByte0 totalSize0 : Nat)
    (etag0 lastMod0 : Option String) (env : Env) :
    (runWorker startByte0 totalSize0 etag0 lastMod0 env).requests.head? =
      some (initialHeaders (resolveStartByte startByte0 env.stagingSize) etag0 lastMod0) := by
  unfold runWorker
  dsimp only
  repeat' split
  all_goals first
    | rfl
    | (rw [runStream_requests]; rfl)

/-! ## Claims -/

/-- C1: when a task is started or resumed, the resume offset is the staging
file's actual byte size whenever the staging file exists and only otherwise
the ledger's downloaded count; and whenever the resume offset is positive,
the worker's initial GET carries `Range: bytes=<offset>-` together with an
`If-Range` header set to the stored etag if present, else to the stored
last-modified value if present. -/
theorem c1_resume_offset_and_headers (startByte0 totalSize0 : Nat)
    (etag0 lastMod0 : Option String) (env : Env) :
    (∀ sz, env.stagingSize = some sz →
      resolveStartByte startByte0 env.stagingSize = sz) ∧
    (env.stagingSize = none →
      resolveStartByte startByte0 env.stagingSize = startByte0) ∧
    (runWorker startByte0 totalSize0 etag0 lastMod0 env).requests.head? =
      some (initialHeaders (resolveStartByte startByte0 env.stagingSize) etag0 lastMod0) ∧
    (resolveStartByte startByte0 env.stagingSize > 0 →
      ("Range", "bytes=" ++ toString (resolveStartByte startByte0 env.stagingSize) ++ "-")
        ∈ initialHeaders (resolveStartByte startByte0 env.stagingSize) etag0 lastMod0 ∧
      (∀ e, etag0 = some e →
        ("If-Range", e)
          ∈ initialHeaders (resolveStartByte startByte0 env.stagingSize) etag0 lastMod0) ∧
      (etag0 = none → ∀ l, lastMod0 = some l →
        ("If-Range", l)
          ∈ initialHeaders (resolveStartByte startByte0 env.stagingSize) etag0 lastMod0)) := by
  refine ⟨?_, ?_, runWorker_requests_headq startByte0 totalSize0 etag0 lastMod0 env, ?_⟩
  · intro sz h
    simp [resolveStartByte, h]
  · intro h
    simp [resolveStartByte, h]
  · intro hpos
    unfold initialHeaders
    rw [if_pos hpos]
    refine ⟨List.mem_cons_self _ _, ?_, ?_⟩
    · intro e he
      rw [he]
      simp
    · intro he l hl
      rw [he, hl]
      simp

/-- Witness for C1 at a concrete resumed download. -/
theorem c1_witness :
    resolveStartByte 400 (envA.stagingSize) = 500 ∧
    ("Range", "bytes=500-") ∈ initialHeaders 500 (some "E") none ∧
    ("If-Range", "E") ∈ initialHeaders 500 (some "E") none := by
  have h := c1_resume_offset_and_headers 400 0 (some "E") none envA
  exact ⟨h.1 500 rfl, (h.2.2.2 (by decide)).1, (h.2.2.2 (by decide)).2.1 "E" rfl⟩

/-- C2: on a 416 answer, when the fresh HEAD size is nonzero and equals the
staging file's size the worker promotes the staging file, emits
InfoEvent(remoteSize, remoteSize), ProgressEvent(100) and
StatusEvent(Completed), and transfers no further bytes (single request, the
streaming loop is never entered); in every other 416 case it issues a
second, unranged GET and — when that response is not itself an error —
enters the streaming loop at offset 0 over a truncated staging file. -/
theorem c2_416_reconciliation (startByte0 totalSize0 : Nat)
    (etag0 lastMod0 : Option String) (env : Env)
    (h416 : env.resp1.statusCode = 416) :
    ((env.headSize > 0 ∧ env.stagingSize.getD 0 = env.headSize) →
      (runWorker startByte0 totalSize0 etag0 lastMod0 env).promoted = true ∧
      (runWorker startByte0 totalSize0 etag0 lastMod0 env).events =
        [Event.info env.headSize env.headSize etag0 lastMod0,
         Event.progress 100, Event.status "Completed"] ∧
      (runWorker startByte0 totalSize0 etag0 lastMod0 env).requests =
        [initialHeaders (resolveStartByte startByte0 env.stagingSize) etag0 lastMod0] ∧
      (runWorker startByte0 totalSize0 etag0 lastMod0 env).loopInit = none ∧
      (runWorker startByte0 totalSize0 etag0 lastMod0 env).destFinal = some env.headSize ∧
      (runWorker startByte0 totalSize0 etag0 lastMod0 env).stagingFinal = none) ∧
    (¬(env.headSize > 0 ∧ env.stagingSize.getD 0 = env.headSize) →
      (runWorker startByte0 totalSize0 etag0 lastMod0 env).requests =
        [initialHeaders (resolveStartByte startByte0 env.stagingSize) etag0 lastMod0, []] ∧
      (env.resp2.statusCode < 400 →
        (runWorker startByte0 totalSize0 etag0 lastMod0 env).loopInit = some (0, 0))) := by
  unfold runWorker
  dsimp only
  rw [if_pos h416]
  constructor
  · intro hc
    rw [if_pos hc]
    refine ⟨rfl, rfl, rfl, rfl, ?_, rfl⟩
    rw [hc.2]
  · intro hc
    rw [if_neg hc]
    by_cases h4 : 400 ≤ env.resp2.statusCode
    · rw [if_pos h4]
      exact ⟨rfl, fun hlt => absurd h4 (by omega)⟩
    · rw [if_neg h4]
      exact ⟨runStream_requests _ _ _ _ _ _ _ _ _,
             fun _ => runStream_loopInit _ _ _ _ _ _ _ _ _⟩

/-- Witness for C2: the complete branch at `env416` (staging size 500 =
HEAD size 500). -/
theorem c2_witness :
    (runWorker 0 0 none none env416).promoted = true ∧
    (runWorker 0 0 none none env416).loopInit = none := by
  have h := c2_416_reconciliation 0 0 none none env416 rfl
  have hc := h.1 (by exact ⟨by decide, rfl⟩)
  exact ⟨hc.1, hc.2.2.2.1⟩

/-- C3: when a ranged request (positive resume offset) is answered with
status 200, the worker discards the staging progress and re-fetches from
the beginning with no Range header (second request has empty headers, the
loop restarts at offset 0 with an empty staging file), and no Error status
event is surfaced for this case (every status event of such a run is
Paused, Stopped or Completed). -/
theorem c3_range_ignored_restart (startByte0 totalSize0 : Nat)
    (etag0 lastMod0 : Option String) (env : Env)
    (hoff : resolveStartByte startByte0 env.stagingSize > 0)
    (h200 : env.resp1.statusCode = 200) :
    (runWorker startByte0 totalSize0 etag0 lastMod0 env).requests =
      [initialHeaders (resolveStartByte startByte0 env.stagingSize) etag0 lastMod0, []] ∧
    (env.resp2.statusCode < 400 →
      (runWorker startByte0 totalSize0 etag0 lastMod0 env).loopInit = some (0, 0) ∧
      (∀ m, Event.status m ∈ (runWorker startByte0 totalSize0 etag0 lastMod0 env).events →
        m = "Paused" ∨ m = "Stopped" ∨ m = "Completed")) := by
  have hne416 : ¬(env.resp1.statusCode = 416) := by rw [h200]; omega
  have hne400 : ¬(400 ≤ env.resp1.statusCode) := by rw [h200]; omega
  unfold runWorker
  dsimp only
  rw [if_neg hne416, if_neg hne400, if_pos (And.intro hoff h200)]
  by_cases h4 : 400 ≤ env.resp2.statusCode
  · rw [if_pos h4]
    exact ⟨rfl, fun hlt => absurd h4 (by omega)⟩
  · rw [if_neg h4]
    refine ⟨runStream_requests _ _ _ _ _ _ _ _ _, fun _ => ?_⟩
    exact ⟨runStream_loopInit _ _ _ _ _ _ _ _ _,
           fun m hm => runStream_status_events _ _ _ _ _ _ _ _ _ m hm⟩

/-- Witness for C3 at `env200` (staging of 500 bytes, server answers 200). -/
theorem c3_witness :
    (runWorker 0 0 none none env200).requests = [initialHeaders 500 none none, []] ∧
    (runWorker 0 0 none none env200).loopInit = some (0, 0) := by
  have h := c3_range_ignored_restart 0 0 none none env200 (by decide) rfl
  exact ⟨h.1, (h.2 (by decide)).1⟩

/-- C4 counterexample: with three 1 MiB chunks all arriving within 0.24 s
of the staging-file open, the worker streams 3 MiB (the info event for
3 MiB of a 4 MiB total is emitted, so the transfer exceeds 2 MiB) and then
observes a pause — yet it executes zero ledger checkpoints, refuting
"checkpointed at least once per 1 MiB transferred" for this ≥ 2 MiB
transfer. -/
theorem c4_counterexample :
    (runWorker 0 0 none none c4env).saves = 0 ∧
    Event.info (3 * 1048576) (4 * 1048576) none none
      ∈ (runWorker 0 0 none none c4env).events ∧
    Event.status "Paused" ∈ (runWorker 0 0 none none c4env).events := by
  refine ⟨rfl, by decide, by decide⟩

/-- C4 (amended): a checkpoint happens at a chunk boundary iff at least
0.25 s passed since the last gate tick AND (at least 0.5 s passed since the
last ledger write OR at least 1 MiB accumulated since it); consequently a
transfer of arbitrarily many bytes performs no checkpoint at all while its
chunk times stay within 0.25 s of the last tick. -/
theorem c4_throttled_checkpoint :
    (∀ (now : Int) (st : LoopState),
      ((tickAndSave now st).saves = st.saves + 1 ↔
        now - st.lastTick ≥ tickIntervalMs ∧
        (now - st.lastSaveTime ≥ saveIntervalMs ∨ st.bytesSinceSave ≥ saveBytesThreshold)) ∧
      (now - st.lastTick < tickIntervalMs → tickAndSave now st = st)) ∧
    (∀ (total : Nat) (etag lastMod : Option String) (chunks : List ChunkEvent)
        (st : LoopState),
      (∀ c ∈ chunks, c.now - st.lastTick < tickIntervalMs) →
      (streamLoop total etag lastMod chunks st).state.saves = st.saves) := by
  constructor
  · intro now st
    constructor
    · constructor
      · intro h
        by_cases h1 : now - st.lastTick ≥ tickIntervalMs
        · refine ⟨h1, ?_⟩
          by_cases h2 : now - st.lastSaveTime ≥ saveIntervalMs ∨
              st.bytesSinceSave ≥ saveBytesThreshold
          · exact h2
          · rw [tickAndSave, if_pos h1, saveThrottled, if_neg h2] at h
            simp at h
        · rw [tickAndSave, if_neg h1] at h
          omega
      · rintro ⟨h1, h2⟩
        rw [tickAndSave, if_pos h1, saveThrottled, if_pos h2]
    · intro hlt
      rw [tickAndSave, if_neg (by omega)]
  · intro total etag lastMod chunks st hno
    exact (streamLoop_no_tick_saves total etag lastMod chunks st hno).1

/-- Witness for the amended C4: a tick 600 ms after an initial state does
checkpoint, and a single early chunk does not. -/
theorem c4_throttled_checkpoint_witness :
    (tickAndSave 600 ⟨0, 0, 0, 0, 0, 0⟩).saves = 0 + 1 ∧
    (streamLoop 0 none none [⟨none, 5, 100⟩] ⟨0, 0, 0, 0, 0, 0⟩).state.saves = 0 := by
  have h := c4_throttled_checkpoint
  refine ⟨((h.1 600 ⟨0, 0, 0, 0, 0, 0⟩).1).mpr ⟨by decide, Or.inl (by decide)⟩,
          h.2 0 none none [⟨none, 5, 100⟩] ⟨0, 0, 0, 0, 0, 0⟩ ?_⟩
  intro c hc
  simp only [List.mem_singleton] at hc
  subst hc
  decide

/-- C6: every progress event emitted inside the chunk-streaming loop
carries a percent of at most 99, for all downloaded counters and totals;
and in any worker run, a ProgressEvent with percent 100 occurs only in a
trace that also contains StatusEvent(Completed). -/
theorem c6_progress_cap (startByte0 totalSize0 : Nat) (etag0 lastMod0 : Option String)
    (env : Env) :
    (∀ (total : Nat) (etag lastMod : Option String) (chunks : List ChunkEvent)
        (st : LoopState) (p : Int),
      Event.progress p ∈ (streamLoop total etag lastMod chunks st).events → p ≤ 99) ∧
    (Event.progress 100 ∈ (runWorker startByte0 totalSize0 etag0 lastMod0 env).events →
      Event.status "Completed" ∈ (runWorker startByte0 totalSize0 etag0 lastMod0 env).events) := by
  constructor
  · intro total etag lastMod chunks st p hp
    exact ((streamLoop_events_ok total etag lastMod chunks st _ hp).1 p rfl).2
  · unfold runWorker
    dsimp only
    repeat' split
    all_goals first
      | exact fun h => runStream_progress100 _ _ _ _ _ _ _ _ _ h
      | (intro h; simp_all)

/-- Witness for C6: a concrete in-loop progress event is 97 ≤ 99, and the
completed run at `envA` indeed pairs its 100% event with Completed. -/
theorem c6_witness :
    ((97 : Int) ≤ 99) ∧
    Event.status "Completed" ∈ (runWorker 400 0 (some "E") none envA).events := by
  have h := c6_progress_cap 400 0 (some "E") none envA
  exact ⟨h.1 1000 none none [⟨none, 970, 0⟩] ⟨0, 0, 0, 0, 0, 0⟩ 97 (by decide),
         h.2 (by decide)⟩

/-- C8: the total size is resolved as the caller-known size if nonzero,
else the Content-Range total if parseable, else Content-Length plus the
resume offset if parseable, else 0 (unknown); and when it resolves to
unknown, the run emits the indeterminate marker ProgressEvent(-1). -/
theorem c8_total_resolution (totalSize0 : Nat) (resp : Response) (sb sa : Nat)
    (e0 l0 : Option String) (env : Env) (reqs : List (List (String × String)))
    (dest : Option Nat) :
    (totalSize0 ≠ 0 → resolveTotal totalSize0 resp sb = totalSize0) ∧
    (∀ t, totalSize0 = 0 → resp.contentRangeTotal = some t →
      resolveTotal totalSize0 resp sb = t) ∧
    (∀ cl, totalSize0 = 0 → resp.contentRangeTotal = none →
      resp.contentLength = some cl → resolveTotal totalSize0 resp sb = cl + sb) ∧
    (totalSize0 = 0 → resp.contentRangeTotal = none → resp.contentLength = none →
      resolveTotal totalSize0 resp sb = 0) ∧
    (resolveTotal totalSize0 resp sb = 0 →
      Event.progress (-1) ∈ (runStream env resp sb sa totalSize0 e0 l0 reqs dest).events) := by
  refine ⟨?_, ?_, ?_, ?_, ?_⟩
  · intro h
    simp [resolveTotal, h]
  · intro t h ht
    simp [resolveTotal, determine_total_size, h, ht]
  · intro cl h ht hcl
    simp [resolveTotal, determine_total_size, h, ht, hcl]
  · intro h ht hcl
    simp [resolveTotal, determine_total_size, h, ht, hcl]
  · exact runStream_indeterminate env resp sb sa totalSize0 e0 l0 reqs dest

/-- Witness for C8: Content-Range total wins at `respB`, a fully silent
`respC` resolves to unknown and yields the indeterminate marker. -/
theorem c8_witness :
    resolveTotal 0 respB 5 = 1234 ∧
    resolveTotal 7 respB 5 = 7 ∧
    Event.progress (-1) ∈ (runStream envA respC 5 5 0 none none [[]] none).events := by
  have hB := c8_total_resolution 0 respB 5 5 none none envA [[]] none
  have hB2 := c8_total_resolution 7 respB 5 5 none none envA [[]] none
  have hC := c8_total_resolution 0 respC 5 5 none none envA [[]] none
  exact ⟨hB.2.1 1234 rfl rfl, hB2.1 (by decide), hC.2.2.2.2 (by decide)⟩

/-- C5: when a worker reports Stopped for a registered row, the controller
resets that row's downloaded count to 0 and deletes its staging file,
leaves every destination file and every other row untouched, and a
subsequent Start of that row spawns a worker with resume offset 0 and the
task's unchanged url/path/total/validators. -/
theorem c5_stop_semantics (s : MgrState) (row : Nat)
    (hrow : row < s.downloads.length) (hdead : s.threadAlive row = false) :
    (on_status s row "Stopped").downloads[row]? =
      some { s.downloads.get ⟨row, hrow⟩ with downloaded := 0 } ∧
    (on_status s row "Stopped").staging row = none ∧
    (on_status s row "Stopped").dest = s.dest ∧
    (∀ q, q ≠ row → (on_status s row "Stopped").staging q = s.staging q) ∧
    (∀ q, q ≠ row → (on_status s row "Stopped").downloads[q]? = s.downloads[q]?) ∧
    (start_download (on_status s row "Stopped") row).2 =
      some ⟨(s.downloads.get ⟨row, hrow⟩).url, (s.downloads.get ⟨row, hrow⟩).path, 0,
            (s.downloads.get ⟨row, hrow⟩).total, (s.downloads.get ⟨row, hrow⟩).etag,
            (s.downloads.get ⟨row, hrow⟩).lastMod⟩ := by
  have hs : on_status s row "Stopped" =
      { s with
        statusText := fun r => if r = row then "Stopped" else s.statusText r,
        downloads :=
          s.downloads.set row { s.downloads.get ⟨row, hrow⟩ with downloaded := 0 },
        staging := fun r => if r = row then none else s.staging r } := by
    unfold on_status
    dsimp only
    rw [if_pos rfl, dif_pos hrow]
  rw [hs]
  refine ⟨?_, by simp, rfl, ?_, ?_, ?_⟩
  · exact List.getElem?_set_self hrow
  · intro q hq
    simp [hq]
  · intro q hq
    exact List.getElem?_set_ne (Ne.symm hq)
  · unfold start_download
    dsimp only
    have hlen : row <
        (s.downloads.set row
          { s.downloads.get ⟨row, hrow⟩ with downloaded := 0 }).length := by
      simpa using hrow
    rw [dif_pos hlen, if_neg (by rw [hdead]; simp)]
    have hget : (s.downloads.set row
          { s.downloads.get ⟨row, hrow⟩ with downloaded := 0 }).get ⟨row, hlen⟩ =
        { s.downloads.get ⟨row, hrow⟩ with downloaded := 0 } := by
      simp [List.get_eq_getElem]
    rw [hget]
    simp [resolveStartByte]

/-- Witness for C5 at `mgrA` (one task, staging of 3 bytes, no live
thread). -/
theorem c5_witness :
    (on_status mgrA 0 "Stopped").staging 0 = none ∧
    (start_download (on_status mgrA 0 "Stopped") 0).2 =
      some ⟨"http://u", "f.bin", 0, 10, none, none⟩ := by
  have h := c5_stop_semantics mgrA 0 (by decide) rfl
  exact ⟨h.2.1, h.2.2.2.2.2⟩

/-- C7: starting a row already served by a live worker spawns no second
worker, changes neither the ledger entry, the control flag, the thread
table, the staging file nor the destination, and only sets the row's
status text to "Already running". -/
theorem c7_start_idempotent (s : MgrState) (row : Nat)
    (hrow : row < s.downloads.length) (halive : s.threadAlive row = true) :
    (start_download s row).2 = none ∧
    (start_download s row).1.downloads = s.downloads ∧
    (start_download s row).1.stopFlags = s.stopFlags ∧
    (start_download s row).1.threadAlive = s.threadAlive ∧
    (start_download s row).1.staging = s.staging ∧
    (start_download s row).1.dest = s.dest ∧
    (start_download s row).1.statusText row = "Already running" ∧
    (∀ q, q ≠ row → (start_download s row).1.statusText q = s.statusText q) := by
  unfold start_download
  dsimp only
  rw [dif_pos hrow, if_pos halive]
  refine ⟨rfl, rfl, rfl, rfl, rfl, rfl, by simp, ?_⟩
  intro q hq
  simp [hq]

/-- Witness for C7 at `mgrB` (one task, live thread). -/
theorem c7_witness :
    (start_download mgrB 0).2 = none ∧
    (start_download mgrB 0).1.statusText 0 = "Already running" := by
  have h := c7_start_idempotent mgrB 0 (by decide) rfl
  exact ⟨h.1, h.2.2.2.2.2.2.1⟩

/-- C9: every ledger persist writes the serialized document to a temporary
file (possibly in several pieces) and installs it with one atomic replace,
so every observable state of the canonical file holds either the old or
the complete new content; and a failed write is swallowed: `save_state`
returns normally, the in-memory state is unchanged, and the canonical file
still holds old-or-new content. -/
theorem c9_atomic_ledger_writes (s : MgrState) (fs : FSFile) (data : String)
    (outcome : Option Nat) :
    (save_state s fs data outcome).1 = s ∧
    (∀ st ∈ atomic_write_json fs data,
      st.canonical = fs.canonical ∨ st.canonical = some data) ∧
    ((save_state s fs data outcome).2.canonical = fs.canonical ∨
     (save_state s fs data outcome).2.canonical = some data) := by
  have hmem : ∀ st ∈ atomic_write_json fs data,
      st.canonical = fs.canonical ∨ st.canonical = some data := by
    intro st hst
    unfold atomic_write_json at hst
    rcases List.mem_append.mp hst with h | h
    · rcases List.mem_map.mp h with ⟨k, _, hk⟩
      left
      rw [← hk]
    · simp only [List.mem_singleton] at h
      right
      rw [h]
  refine ⟨by cases outcome <;> rfl, hmem, ?_⟩
  cases outcome with
  | none => right; rfl
  | some k =>
    show ((atomic_write_json fs data).getD k fs).canonical = fs.canonical ∨
         ((atomic_write_json fs data).getD k fs).canonical = some data
    rw [List.getD_eq_getElem?_getD]
    rcases hk : (atomic_write_json fs data)[k]? with _ | x
    · left
      rfl
    · exact hmem x (List.getElem?_mem hk)

/-- Witness for C9: a write of "ab" over `fsA` that dies after one
observable step still leaves the in-memory state intact and the canonical
file readable as old or new. -/
theorem c9_witness :
    (save_state mgrA fsA "ab" (some 1)).1 = mgrA ∧
    ((⟨some "ab", none⟩ : FSFile).canonical = fsA.canonical ∨
     (⟨some "ab", none⟩ : FSFile).canonical = some "ab") ∧
    ((save_state mgrA fsA "ab" (some 1)).2.canonical = fsA.canonical ∨
     (save_state mgrA fsA "ab" (some 1)).2.canonical = some "ab") := by
  have h := c9_atomic_ledger_writes mgrA fsA "ab" (some 1)
  refine ⟨h.1, h.2.1 ⟨some "ab", none⟩ ?_, h.2.2⟩
  unfold atomic_write_json
  simp

/-- C10: a stop (or pause) requested on a row with no live worker changes
only that row's control flag and displayed status — the ledger entries,
staging files, destinations and thread table are untouched — and a
subsequent Start clears the pending flag before spawning, so stopping an
idle task never deletes its staging progress. -/
theorem c10_idle_stop_frame (s : MgrState) (row : Nat) :
    (stop_download s row).downloads = s.downloads ∧
    (stop_download s row).staging = s.staging ∧
    (stop_download s row).dest = s.dest ∧
    (stop_download s row).threadAlive = s.threadAlive ∧
    (stop_download s row).stopFlags row = some "stop" ∧
    (∀ q, q ≠ row → (stop_download s row).stopFlags q = s.stopFlags q ∧
      (stop_download s row).statusText q = s.statusText q) ∧
    (pause_download s row).downloads = s.downloads ∧
    (pause_download s row).staging = s.staging ∧
    (pause_download s row).dest = s.dest ∧
    (pause_download s row).stopFlags row = some "pause" ∧
    (row < s.downloads.length → s.threadAlive row = false →
      (start_download (stop_download s row) row).1.stopFlags row = none ∧
      (start_download (stop_download s row) row).1.staging = s.staging ∧
      (start_download (stop_download s row) row).1.downloads = s.downloads) := by
  refine ⟨rfl, rfl, rfl, rfl, by simp [stop_download], ?_, rfl, rfl, rfl,
    by simp [pause_download], ?_⟩
  · intro q hq
    constructor <;> simp [stop_download, hq]
  · intro hrow hdead
    unfold start_download stop_download
    dsimp only
    rw [dif_pos hrow, if_neg (by rw [hdead]; simp)]
    refine ⟨by simp, rfl, rfl⟩

/-- Witness for C10 at `mgrA`: the staging file survives the stop request
and the flag is cleared by the next Start. -/
theorem c10_witness :
    (stop_download mgrA 0).staging 0 = some 3 ∧
    (stop_download mgrA 0).downloads = mgrA.downloads ∧
    (start_download (stop_download mgrA 0) 0).1.stopFlags 0 = none := by
  have h := c10_idle_stop_frame mgrA 0
  refine ⟨?_, h.1, (h.2.2.2.2.2.2.2.2.2.2 (by decide) rfl).1⟩
  rw [h.2.1]
  rfl

end DL
